import Mathlib

set_option maxRecDepth 10000

/- Shallow embedding of the content-safety gate of this repository:
   the risk-detection tool (src/src/tools/detect_risks_plugin.py) and the
   plugin chain (src/src/tools/chain_preinvoke_plugin.py).
   Text is modelled as List Char; regular-expression scans from the source are
   implemented as executable scanning functions with the same match semantics
   (ASCII-faithful); machine floats become exact rationals; remote HTTP calls
   become an explicit environment (oracle) passed to the aggregator. -/

def cl (s : String) : List Char := s.toList

/-- Python regex class \d restricted to ASCII digits. -/
def isDigitChar (c : Char) : Bool := c.isDigit

/-- Python regex class \s (ASCII whitespace characters). -/
def isSpaceChar (c : Char) : Bool :=
  c = ' ' || c = '\t' || c = '\n' || c = '\r' || c = '\x0b' || c = '\x0c'

/-- Python substring test `needle in text`. -/
def containsSub (needle : List Char) : List Char → Bool
  | [] => needle.isPrefixOf []
  | c :: rest => needle.isPrefixOf (c :: rest) || containsSub needle rest

def digitRunsGo : List Char → List Char → List (List Char)
  | [], cur => if cur.isEmpty then [] else [cur.reverse]
  | c :: rest, cur =>
    if isDigitChar c then digitRunsGo rest (c :: cur)
    else if cur.isEmpty then digitRunsGo rest []
    else cur.reverse :: digitRunsGo rest []

/-- Maximal runs of consecutive digits in a text. -/
def digitRuns (s : List Char) : List (List Char) := digitRunsGo s []

/-- Embedding of re.findall of six or more consecutive digits over the text:
    the maximal digit runs of length at least 6, left to right. -/
def findallDigits6 (s : List Char) : List (List Char) :=
  (digitRuns s).filter (fun r => 6 ≤ r.length)

/-- Python int() on a nonempty string of ASCII digits. -/
def natOfDigits (l : List Char) : Nat :=
  l.foldl (fun acc c => 10 * acc + (c.toNat - 48)) 0

/-- Exact product of rationals, written through mkRat so that kernel evaluation
    reduces; equal to multiplication on ℚ. -/
def qmul (a b : ℚ) : ℚ := mkRat (a.num * b.num) (a.den * b.den)

/-- Python max(a, b) on rationals: the second argument only when strictly larger. -/
def pyMax (a b : ℚ) : ℚ := if a < b then b else a

/-- Python float() on a capture of shape digits or digits.digits, as an exact rational. -/
def coeffVal (s : List Char) : ℚ :=
  let ip := s.takeWhile isDigitChar
  match s.drop ip.length with
  | '.' :: f => mkRat (natOfDigits ip * 10 ^ f.length + natOfDigits f) (10 ^ f.length)
  | _ => (natOfDigits ip : ℚ)

/-- Attempt, at the start of s, the match of number-then-spaces-then-word
    (the magnitude pattern of the source: a digit run, an optional dot plus digit
    run, any spacing, then the magnitude word); returns the captured number text. -/
def coeffTail (word : List Char) (s : List Char) : Option (List Char) :=
  let d := s.takeWhile isDigitChar
  if d.isEmpty then none
  else
    let s1 := s.drop d.length
    let step : List Char × List Char :=
      match s1 with
      | '.' :: t =>
        let f := t.takeWhile isDigitChar
        if f.isEmpty then (d, s1) else (d ++ '.' :: f, t.drop f.length)
      | _ => (d, s1)
    let s3 := step.2.dropWhile isSpaceChar
    if word.isPrefixOf s3 then some step.1 else none

/-- Leftmost match of the magnitude pattern in the text (re.findall, first capture). -/
def firstCoeff (word : List Char) : List Char → Option (List Char)
  | [] => none
  | c :: rest =>
    match coeffTail word (c :: rest) with
    | some cap => some cap
    | none => firstCoeff word rest

/-- Earliest run of at least four consecutive digits before the next newline,
    mirroring the lazy dot-star then greedy digit group of the action pattern. -/
def firstDigitRun4 : List Char → Option (List Char)
  | [] => none
  | c :: rest =>
    if c = '\n' then none
    else
      let r := (c :: rest).takeWhile isDigitChar
      if 4 ≤ r.length then some r else firstDigitRun4 rest

/-- Continuation of the action pattern after the action word: at least one
    whitespace character, then any non-newline characters, then four or more digits. -/
def actionTail (s : List Char) : Option (List Char) :=
  let w := s.takeWhile isSpaceChar
  if w.isEmpty then none else firstDigitRun4 (s.drop w.length)

/-- Leftmost match of action-word-then-whitespace-then-lazy-gap-then-digits
    (re.findall of the dangerous action pattern; first captured digit run). -/
def findActionMatch (action : List Char) : List Char → Option (List Char)
  | [] => none
  | c :: rest =>
    if action.isPrefixOf (c :: rest) then
      match actionTail ((c :: rest).drop action.length) with
      | some cap => some cap
      | none => findActionMatch action rest
    else findActionMatch action rest

def enumNouns : List (List Char) :=
  [cl "possible", cl "combination", cl "permutation", cl "password"]

def allEnumTailMatch (s : List Char) : Bool :=
  let w := s.takeWhile isSpaceChar
  !w.isEmpty && enumNouns.any (fun n => n.isPrefixOf (s.drop w.length))

/-- Embedding of re.search of the exhaustive-enumeration pattern: the word all or
    every, whitespace, then possible, combination(s), permutation(s) or password(s). -/
def hasAllPattern : List Char → Bool
  | [] => false
  | c :: rest =>
    ((cl "all").isPrefixOf (c :: rest) && allEnumTailMatch ((c :: rest).drop 3)) ||
    ((cl "every").isPrefixOf (c :: rest) && allEnumTailMatch ((c :: rest).drop 5)) ||
    hasAllPattern rest

/- ===== configuration constants from the source file ===== -/

def ENABLE_HARM_DETECTION : Bool := true
def ENABLE_SOCIAL_BIAS_DETECTION : Bool := true
def ENABLE_JAILBREAK_DETECTION : Bool := true
def ENABLE_HAP_DETECTION : Bool := true
def ENABLE_PII_DETECTION : Bool := true
def ENABLE_PROMPT_INJECTION_DETECTION : Bool := true
def ENABLE_RESOURCE_EXHAUSTION_DETECTION : Bool := true

def THRESHOLD_HARM : ℚ := mkRat 6 10
def THRESHOLD_SOCIAL_BIAS : ℚ := mkRat 6 10
def THRESHOLD_JAILBREAK : ℚ := mkRat 6 10
def THRESHOLD_HAP : ℚ := mkRat 6 10
def THRESHOLD_PII : ℚ := mkRat 6 10
def THRESHOLD_PROMPT_INJECTION : ℚ := mkRat 6 10

def RESOURCE_MAX_PROMPT_LENGTH : Nat := 10000
def RESOURCE_MAX_NUMBER_SIZE : Nat := 1000000
def MIN_SIZE_MESSAGE : Nat := 10

/-- Module-level flag of the source; False except under the local test main. -/
def LOCAL_MODE : Bool := false

/- ===== ResourceExhaustionDetector ===== -/

inductive RiskLevel
  | low
  | medium
  | high
deriving DecidableEq, Repr

def RiskLevel.idx : RiskLevel → Nat
  | .low => 0
  | .medium => 1
  | .high => 2

/-- Python max(a, b, key=level index): b exactly when its index is strictly larger. -/
def RiskLevel.maxL (a b : RiskLevel) : RiskLevel := if a.idx < b.idx then b else a

/-- Reasons recorded by ResourceExhaustionDetector.check; one constructor per
    reason string appended by the source, carrying the data interpolated there. -/
inductive Reason
  | promptTooLong (chars : Nat)
  | largeNumbersDetected (firstThree : List (List Char))
  | numberExceedsLimit (n : Nat)
  | excessiveMagnitude (coeff : List Char) (word : List Char)
  | magnitudeKeyword (word : List Char)
  | dangerousKeyword (kw : List Char)
  | dangerousPattern (action : List Char) (num : List Char)
  | exhaustiveEnumeration
deriving DecidableEq, Repr

structure ResourceExhaustionResult where
  is_dangerous : Bool
  risk_level : RiskLevel
  reasons : List Reason
  flagged_text : Option (List Char)
deriving DecidableEq, Repr

structure ResourceExhaustionDetector where
  max_length : Nat
  max_number_size : Nat
deriving DecidableEq, Repr

def dangerous_keywords : List (List Char) :=
  [cl "million", cl "billion", cl "trillion", cl "quadrillion",
   cl "infinite", cl "unlimited", cl "endless", cl "forever",
   cl "enumerate all", cl "list all", cl "all possible",
   cl "every single", cl "every possible", cl "all combinations",
   cl "all permutations", cl "brute force"]

def action_words : List (List Char) :=
  [cl "repeat", cl "generate", cl "create", cl "list", cl "enumerate",
   cl "calculate", cl "compute", cl "expand", cl "output", cl "print",
   cl "write", cl "show", cl "display"]

def magnitude_words : List (List Char × Nat) :=
  [(cl "million", 1000000), (cl "billion", 1000000000), (cl "trillion", 1000000000000)]

/-- Python truthiness of an optional string: None and the empty string are falsy. -/
def pyFalsy (o : Option (List Char)) : Bool := (o.getD []).isEmpty

structure CheckState where
  reasons : List Reason
  risk_level : RiskLevel
  flagged_text : Option (List Char)
deriving DecidableEq, Repr

/-- Prompt-length check of ResourceExhaustionDetector.check. -/
def lengthStep (d : ResourceExhaustionDetector) (text : List Char) (st : CheckState) :
    CheckState :=
  if d.max_length < text.length then
    { st with reasons := st.reasons ++ [.promptTooLong text.length], risk_level := .high }
  else st

/-- Large-number scan of ResourceExhaustionDetector.check: the findall of six or
    more digits, the medium escalation with the first run flagged, then the
    first run whose integer value exceeds the limit escalating to high. -/
def largeNumberStep (d : ResourceExhaustionDetector) (text : List Char) (st : CheckState) :
    CheckState :=
  match findallDigits6 text with
  | [] => st
  | n :: ns =>
    let st1 : CheckState :=
      { st with reasons := st.reasons ++ [.largeNumbersDetected ((n :: ns).take 3)],
                risk_level := st.risk_level.maxL .medium,
                flagged_text := some n }
    match (n :: ns).find? (fun m => d.max_number_size < natOfDigits m) with
    | some m =>
      { st1 with reasons := st1.reasons ++ [.numberExceedsLimit (natOfDigits m)],
                 risk_level := .high }
    | none => st1

/-- Magnitude-word check for one word of magnitude_words, on the lowercased text. -/
def magnitudeWordStep (d : ResourceExhaustionDetector) (textLower : List Char)
    (st : CheckState) (wm : List Char × Nat) : CheckState :=
  if containsSub wm.1 textLower then
    match firstCoeff wm.1 textLower with
    | some cap =>
      if (d.max_number_size : ℚ) < qmul (coeffVal cap) (wm.2 : ℚ) then
        { st with reasons := st.reasons ++ [.excessiveMagnitude cap wm.1],
                  risk_level := .high,
                  flagged_text := some (cap ++ ' ' :: wm.1) }
      else st
    | none =>
      { st with reasons := st.reasons ++ [.magnitudeKeyword wm.1],
                risk_level := st.risk_level.maxL .medium }
  else st

/-- Dangerous-keyword check for one keyword, on the lowercased text. -/
def keywordStep (textLower : List Char) (st : CheckState) (kw : List Char) : CheckState :=
  if containsSub kw textLower then
    { st with reasons := st.reasons ++ [.dangerousKeyword kw],
              risk_level := st.risk_level.maxL .medium,
              flagged_text := if pyFalsy st.flagged_text then some kw else st.flagged_text }
  else st

/-- Dangerous action-plus-large-number pattern check for one action word. -/
def actionWordStep (textLower : List Char) (st : CheckState) (action : List Char) :
    CheckState :=
  match findActionMatch action textLower with
  | some cap =>
    { st with reasons := st.reasons ++ [.dangerousPattern action cap],
              risk_level := .high,
              flagged_text :=
                if pyFalsy st.flagged_text then some (action ++ ' ' :: cap)
                else st.flagged_text }
  | none => st

/-- Exhaustive-enumeration phrase check on the lowercased text. -/
def enumerationStep (textLower : List Char) (st : CheckState) : CheckState :=
  if hasAllPattern textLower then
    { st with reasons := st.reasons ++ [.exhaustiveEnumeration], risk_level := .high }
  else st

/-- Embedding of ResourceExhaustionDetector.check: all rule groups run in source
    order on one shared state of reasons, risk level and flagged text. -/
def ResourceExhaustionDetector.check (d : ResourceExhaustionDetector) (text : List Char) :
    ResourceExhaustionResult :=
  let textLower := text.map Char.toLower
  let st0 : CheckState := ⟨[], .low, none⟩
  let st1 := lengthStep d text st0
  let st2 := largeNumberStep d text st1
  let st3 := magnitude_words.foldl (magnitudeWordStep d textLower) st2
  let st4 := dangerous_keywords.foldl (keywordStep textLower) st3
  let st5 := action_words.foldl (actionWordStep textLower) st4
  let st6 := enumerationStep textLower st5
  ⟨!st6.reasons.isEmpty, st6.risk_level, st6.reasons, st6.flagged_text⟩

/-- Detector as constructed inside the aggregator, with the configured limits. -/
def exhaustion_detector : ResourceExhaustionDetector :=
  ⟨RESOURCE_MAX_PROMPT_LENGTH, RESOURCE_MAX_NUMBER_SIZE⟩

/- ===== DetectionResult (watsonx text-detection client) ===== -/

structure DetectionRecord where
  detection : Option (List Char)
  score : Option ℚ
deriving DecidableEq, Repr

structure DetectionResult where
  input_text : List Char
  detections : List DetectionRecord
  success : Bool
  error : Option (List Char) := none
deriving DecidableEq, Repr

/-- Embedding of DetectionResult.has_risk: false on failure or no records, else
    true exactly when some record carries the detection flag Yes or has_HAP. -/
def DetectionResult.has_risk (r : DetectionResult) : Bool :=
  if !r.success || r.detections.isEmpty then false
  else r.detections.any fun d =>
    d.detection = some (cl "Yes") || d.detection = some (cl "has_HAP")

/- ===== response dictionaries ===== -/

structure ResponseConfig where
  message : List Char
  action : List Char
  guidance : List Char
deriving DecidableEq, Repr

def BLOCK_RESPONSE : ResponseConfig :=
  ⟨cl "I\x27m sorry but your message was blocked due to safety concerns. Please modify your input and try again.",
   cl "BLOCK",
   cl "Remove any harmful, biased, abusive, personal information, or potentially unsafe content."⟩

def REVIEW_RESPONSE : ResponseConfig :=
  ⟨cl "Content flagged for review. Please verify this is appropriate.",
   cl "REVIEW",
   cl "Review the content for potential safety concerns before proceeding."⟩

def ALLOW_RESPONSE : ResponseConfig :=
  ⟨cl "Content passed safety checks.",
   cl "ALLOW",
   cl "No safety concerns detected."⟩

/- ===== aggregate report model ===== -/

inductive CategoryKey
  | resourceExhaustion
  | harm
  | socialBias
  | jailbreak
  | hap
  | pii
  | promptInjection
deriving DecidableEq, Repr

/-- Key strings used by the source for the detections map and primary_threat. -/
def categoryName : CategoryKey → List Char
  | .resourceExhaustion => cl "Resource exhaustion"
  | .harm => cl "harm"
  | .socialBias => cl "social_bias"
  | .jailbreak => cl "jailbreak"
  | .hap => cl "Hate/Abuse/Profanity"
  | .pii => cl "Personal information"
  | .promptInjection => cl "Prompt injection"

/-- Entries of the detections map: the local resource-exhaustion entry records
    the full check result; a remote entry records detected, rounded max score,
    record count, threshold, and for prompt injection whether a custom system
    prompt was used (none elsewhere). The constant method strings of the source
    are determined by the key and not repeated here. -/
inductive CategoryEntry
  | exhaustion (result : ResourceExhaustionResult)
  | remote (detected : Bool) (max_score : ℚ) (detection_count : Nat) (threshold : ℚ)
      (system_prompt_custom : Option Bool)
deriving DecidableEq, Repr

/-- Python .get of the detected key; present in every entry the source records. -/
def CategoryEntry.getDetected : CategoryEntry → Bool
  | .exhaustion r => r.is_dangerous
  | .remote d _ _ _ _ => d

/-- Python .get of max_score with default 0; the local entry has no such key. -/
def CategoryEntry.getScore : CategoryEntry → ℚ
  | .exhaustion _ => 0
  | .remote _ s _ _ _ => s

inductive RiskBand
  | LOW
  | MEDIUM
  | HIGH
deriving DecidableEq, Repr

inductive Recommendation
  | ALLOW
  | REVIEW
  | BLOCK
deriving DecidableEq, Repr

inductive ErrorMsg
  | expectedConnection
  | missingCredentials
  | exceptionText (s : List Char)
deriving DecidableEq, Repr

/-- Results dictionary of _run_detections; a key absent from the dictionary is
    a field holding none. -/
structure Report where
  success : Bool
  error : Option ErrorMsg := none
  input_text : Option (List Char) := none
  enabled_detections : List CategoryKey := []
  detections : List (CategoryKey × CategoryEntry) := []
  overall_risk : Option RiskBand := none
  recommendation : Option Recommendation := none
  response : Option ResponseConfig := none
  any_risk_detected : Option Bool := none
  max_score : Option ℚ := none
  primary_threat : Option CategoryKey := none
deriving DecidableEq, Repr

/-- Environment of the aggregator: the credential sources, the token exchange
    (whose error side stands for the exception it raises), and the remote
    detection endpoint as a function of bearer token and category. -/
structure RemoteEnv where
  kvIsDict : Bool
  kv_api_key : Option (List Char)
  kv_instance_id : Option (List Char)
  env_api_key : Option (List Char)
  env_instance_id : Option (List Char)
  tokenExchange : List Char → Except ErrorMsg (List Char)
  detect : List Char → CategoryKey → DetectionResult

/-- Python dict.get(key, fallback) over the credential lookups. -/
def optOr (a b : Option (List Char)) : Option (List Char) :=
  match a with
  | some v => some v
  | none => b

/-- Python round(x, 4) modelled as round half up on exact rationals, written
    through mkRat and Euclidean division so that kernel evaluation reduces. -/
def roundQ4 (q : ℚ) : ℚ :=
  mkRat ((2 * (q.num * 10000) + (q.den : Int)).ediv (2 * (q.den : Int))) 10000

/-- Python max over a list of scores with default 0 on empty; iteration keeps
    the current value unless a later one is strictly larger. -/
def pyMaxD0 (l : List ℚ) : ℚ :=
  match l with
  | [] => 0
  | x :: xs => xs.foldl pyMax x

structure AggState where
  enabled : List CategoryKey
  dets : List (CategoryKey × CategoryEntry)
  calls : List CategoryKey
deriving DecidableEq, Repr

/-- One remote detection block of the aggregator (the granite-guardian loop body
    and the hap, pii and prompt-injection blocks share this shape): append the
    category to enabled_detections, perform the remote call, and record an entry
    only when the call succeeded. The calls component logs every remote call
    attempted, in order, as instrumentation for the no-remote-call claims. -/
def remoteStep (env : RemoteEnv) (token : List Char) (key : CategoryKey)
    (threshold : ℚ) (spCustom : Option Bool) (st : AggState) : AggState :=
  let st1 : AggState := { st with enabled := st.enabled ++ [key], calls := st.calls ++ [key] }
  let result := env.detect token key
  if result.success then
    { st1 with dets := st1.dets ++
        [(key, .remote result.has_risk
                 (roundQ4 (pyMaxD0 (result.detections.map fun d => d.score.getD 0)))
                 result.detections.length threshold spCustom)] }
  else st1

/-- Granite Guardian detections dictionary: risk name with enable flag and threshold. -/
def granite_detections : List (CategoryKey × Bool × ℚ) :=
  [(.harm, ENABLE_HARM_DETECTION, THRESHOLD_HARM),
   (.socialBias, ENABLE_SOCIAL_BIAS_DETECTION, THRESHOLD_SOCIAL_BIAS),
   (.jailbreak, ENABLE_JAILBREAK_DETECTION, THRESHOLD_JAILBREAK)]

/-- Loop body over granite_detections; a disabled risk is skipped. -/
def graniteStep (env : RemoteEnv) (token : List Char) (st : AggState)
    (spec : CategoryKey × Bool × ℚ) : AggState :=
  if spec.2.1 then remoteStep env token spec.1 spec.2.2 none st else st

/-- Remote phase of _run_detections: the granite loop, then hap, pii and prompt
    injection, each guarded by its enable flag. -/
def runRemotePhase (env : RemoteEnv) (token : List Char)
    (system_prompt : Option (List Char)) (st0 : AggState) : AggState :=
  let st1 := granite_detections.foldl (graniteStep env token) st0
  let st2 := if ENABLE_HAP_DETECTION then remoteStep env token .hap THRESHOLD_HAP none st1 else st1
  let st3 := if ENABLE_PII_DETECTION then remoteStep env token .pii THRESHOLD_PII none st2 else st2
  if ENABLE_PROMPT_INJECTION_DETECTION then
    remoteStep env token .promptInjection THRESHOLD_PROMPT_INJECTION
      (some (!pyFalsy system_prompt)) st3
  else st3

/-- Key function of the primary-threat max: max_score when detected, else 0. -/
def primaryKeyFn (p : CategoryKey × CategoryEntry) : ℚ :=
  if p.2.getDetected then p.2.getScore else 0

/-- Python max(items, key=...): the first item whose key no later item strictly exceeds. -/
def pyMaxByKey (l : List (CategoryKey × CategoryEntry)) :
    Option (CategoryKey × CategoryEntry) :=
  match l with
  | [] => none
  | x :: xs => some (xs.foldl (fun best y => if primaryKeyFn best < primaryKeyFn y then y else best) x)

/-- Verdict branch of _run_detections: thresholds 0.8 and 0.6 on the maximum
    overall score select the risk level, recommendation and response message. -/
def scoreVerdict (ms : ℚ) : RiskBand × Recommendation × ResponseConfig :=
  if mkRat 8 10 ≤ ms then (.HIGH, .BLOCK, BLOCK_RESPONSE)
  else if mkRat 6 10 ≤ ms then (.MEDIUM, .REVIEW, REVIEW_RESPONSE)
  else (.LOW, .ALLOW, ALLOW_RESPONSE)

/-- Score aggregation and verdict derivation of _run_detections (the code after
    the remote blocks): any_risk over recorded detected flags, max score over
    recorded entries whose detected flag is true, the scoreVerdict thresholds,
    and the primary threat as the first detected entry of maximal score. -/
def scoreReport (input_text : List Char) (st : AggState) : Report :=
  let any_risk_detected := st.dets.any fun p => p.2.getDetected
  let max_overall_score :=
    pyMaxD0 ((st.dets.filter fun p => p.2.getDetected).map fun p => p.2.getScore)
  let verdict := scoreVerdict max_overall_score
  { success := true
    input_text := some input_text
    enabled_detections := st.enabled
    detections := st.dets
    overall_risk := some verdict.1
    recommendation := some verdict.2.1
    response := some verdict.2.2
    any_risk_detected := some any_risk_detected
    max_score := some (roundQ4 max_overall_score)
    primary_threat := if any_risk_detected then (pyMaxByKey st.dets).map Prod.fst else none }

/-- Input-text truncation of the results dictionary (first 100 characters). -/
def truncateInput (text : List Char) : List Char :=
  if 100 < text.length then text.take 100 ++ cl "..." else text

/-- Embedding of _run_detections. Remote I/O comes from env; the second result
    component records the remote detection calls attempted, in order. An
    exception raised by the token exchange is the error side of
    env.tokenExchange and surfaces as the catch-all failure dictionary. -/
def run_detections (env : RemoteEnv) (text : List Char)
    (system_prompt : Option (List Char)) : Report × List CategoryKey :=
  let input_text := truncateInput text
  let exhaustion_result := exhaustion_detector.check text
  let st0 : AggState :=
    if ENABLE_RESOURCE_EXHAUSTION_DETECTION then
      ⟨[.resourceExhaustion], [(.resourceExhaustion, .exhaustion exhaustion_result)], []⟩
    else ⟨[], [], []⟩
  if ENABLE_RESOURCE_EXHAUSTION_DETECTION && exhaustion_result.is_dangerous then
    ({ success := true
       input_text := some input_text
       enabled_detections := st0.enabled
       detections := st0.dets
       overall_risk := some .HIGH
       recommendation := some .BLOCK
       primary_threat := some .resourceExhaustion
       any_risk_detected := some true
       max_score := some 1
       response := some BLOCK_RESPONSE }, [])
  else if text.length < MIN_SIZE_MESSAGE then
    ({ success := true
       input_text := some input_text
       enabled_detections := st0.enabled
       detections := st0.dets }, [])
  else if !LOCAL_MODE && !env.kvIsDict then
    ({ success := false, error := some .expectedConnection }, [])
  else
    let api_key := if LOCAL_MODE then env.env_api_key else optOr env.kv_api_key env.env_api_key
    let instance_id :=
      if LOCAL_MODE then env.env_instance_id else optOr env.kv_instance_id env.env_instance_id
    if pyFalsy api_key || pyFalsy instance_id then
      ({ success := false, error := some .missingCredentials }, [])
    else
      match env.tokenExchange (api_key.getD []) with
      | .error e => ({ success := false, error := some e }, [])
      | .ok bearer_token =>
        let st := runRemotePhase env bearer_token system_prompt st0
        (scoreReport input_text st, st.calls)

/- ===== pre-invoke gate ===== -/

inductive Role
  | user
  | assistant
deriving DecidableEq, Repr

structure TextContent where
  type : List Char
  text : List Char
deriving DecidableEq, Repr

structure Message where
  role : Role
  content : TextContent
deriving DecidableEq, Repr

structure AgentPreInvokePayload where
  messages : List Message
deriving DecidableEq, Repr

structure AgentPreInvokeResult where
  continue_processing : Bool
  modified_payload : Option AgentPreInvokePayload := none
  messages : Option (List Message) := none
deriving DecidableEq, Repr

def FALLBACK_BLOCK_MESSAGE : List Char :=
  cl "Your input has been blocked due to safety concerns. Please reformulate your request."

def FALLBACK_GUIDANCE : List Char := cl "Please review and modify your input."

/-- Embedding of the pre-invoke hook detect_risks_plugin: extract the last
    message text, run the detections, fail open on aggregation failure, block
    with a rewritten deep copy on HIGH or BLOCK, otherwise continue with a deep
    copy of the payload (value semantics make the deep copy the value itself). -/
def detect_risks_plugin (env : RemoteEnv) (payload : AgentPreInvokePayload) :
    AgentPreInvokeResult :=
  match payload.messages.getLast? with
  | none => { continue_processing := true, messages := some payload.messages }
  | some last_message =>
    let user_input := last_message.content.text
    if user_input.isEmpty then
      { continue_processing := true, messages := some payload.messages }
    else
      let detection_results := (run_detections env user_input none).1
      if !detection_results.success then
        { continue_processing := true, messages := some payload.messages }
      else
        let overall_risk := detection_results.overall_risk.getD .LOW
        let recommendation := detection_results.recommendation.getD .ALLOW
        if overall_risk = .HIGH || recommendation = .BLOCK then
          let block_message :=
            (detection_results.response.map ResponseConfig.message).getD FALLBACK_BLOCK_MESSAGE
          let primary_threat :=
            (detection_results.primary_threat.map categoryName).getD (cl "unknown")
          let guidance :=
            (detection_results.response.map ResponseConfig.guidance).getD FALLBACK_GUIDANCE
          let detailed_block_message :=
            block_message ++ cl "\n\nPrimary concern: " ++ primary_threat ++ cl ". " ++ guidance
          let output_msg : Message := ⟨.user, ⟨cl "text", detailed_block_message⟩⟩
          { continue_processing := false
            modified_payload := some { messages := payload.messages.dropLast ++ [output_msg] } }
        else
          { continue_processing := true, modified_payload := some payload }

/-- Embedding of the final exception handler of detect_risks_plugin: any
    exception raised inside the gate is converted to fail open, continuing with
    a deep copy of the payload. -/
def detect_risks_plugin_on_error (payload : AgentPreInvokePayload) : AgentPreInvokeResult :=
  { continue_processing := true, modified_payload := some payload }

/- ===== plugin chain ===== -/

inductive StageCondition
  | always
  | if_link_present
deriving DecidableEq, Repr

/-- One entry of PLUGIN_CHAIN; the stage function may raise (error side). -/
structure StageConfig where
  name : List Char
  func : AgentPreInvokePayload → Except (List Char) AgentPreInvokeResult
  condition : StageCondition

def isLinkClassChar (c : Char) : Bool := c.isAlpha || c.isDigit || c = '.' || c = '-'

def tldList : List (List Char) :=
  [cl "com", cl "org", cl "net", cl "edu", cl "io", cl "jpeg", cl "png", cl "jpg"]

def prefixThenNonspace (p : List Char) (s : List Char) : Bool :=
  p.isPrefixOf s &&
    (match s.drop p.length with
     | c :: _ => !isSpaceChar c
     | [] => false)

def linkAlt1At (s : List Char) : Bool :=
  prefixThenNonspace (cl "http://") s || prefixThenNonspace (cl "https://") s ||
  prefixThenNonspace (cl "//") s || prefixThenNonspace (cl "www.") s

def hasLinkGo : Option Char → List Char → Bool
  | _, [] => false
  | prev, c :: rest =>
    linkAlt1At (c :: rest) ||
    (c = '.' && (match prev with | some p => isLinkClassChar p | none => false) &&
       tldList.any fun t => t.isPrefixOf rest) ||
    hasLinkGo (some c) rest

/-- Embedding of re.search of LINK_DETECTION_REGEX with IGNORECASE: a url prefix
    followed by a non-space character, or a domain character, a dot and one of
    the listed extensions. The text is lowercased first. -/
def hasLink (s : List Char) : Bool := hasLinkGo none (s.map Char.toLower)

/-- Condition gate of the chain: a stage conditioned on if_link_present is
    skipped unless the link regex matches the current last-message text. -/
def stageApplies (st : StageConfig) (user_text : List Char) : Bool :=
  match st.condition with
  | .always => true
  | .if_link_present => hasLink user_text

/-- Last-message text as the chain extracts it; empty when there are no messages. -/
def chainUserText (payload : AgentPreInvokePayload) : List Char :=
  match payload.messages.getLast? with
  | some m => m.content.text
  | none => []

/-- Embedding of chain_plugins over a declared stage list: stages run in order
    on the threaded payload; a stage whose condition is false is skipped without
    invocation; a stage returning continue false ends the chain with its
    modified payload; a raising stage ends the chain failing closed with no
    payload. The second result component records the names of the stages
    actually invoked, in order. -/
def chain_plugins : List StageConfig → AgentPreInvokePayload →
    AgentPreInvokeResult × List (List Char)
  | [], current_payload =>
    ({ continue_processing := true, modified_payload := some current_payload }, [])
  | stage :: rest, current_payload =>
    if !stageApplies stage (chainUserText current_payload) then
      chain_plugins rest current_payload
    else
      match stage.func current_payload with
      | .error _ => ({ continue_processing := false }, [stage.name])
      | .ok result =>
        if !result.continue_processing then
          ({ continue_processing := false, modified_payload := result.modified_payload },
           [stage.name])
        else
          let next_payload :=
            match result.modified_payload with
            | some p => p
            | none => current_payload
          let tail := chain_plugins rest next_payload
          (tail.1, stage.name :: tail.2)

/- ===== shared concrete environments and payloads for evaluation ===== -/

/-- Environment whose remote calls all succeed with no detection records. -/
def envAllOk : RemoteEnv :=
  ⟨true, some (cl "key"), some (cl "instance"), none, none,
   fun _ => .ok (cl "token"), fun _ _ => ⟨[], [], true, none⟩⟩

/-- Environment whose harm call fails and whose other calls succeed cleanly. -/
def envFailHarm : RemoteEnv :=
  ⟨true, some (cl "key"), some (cl "instance"), none, none,
   fun _ => .ok (cl "token"),
   fun _ k => if k = .harm then ⟨[], [], false, some (cl "timeout")⟩
              else ⟨[], [], true, none⟩⟩

/-- Environment whose connection lookup does not yield a dictionary. -/
def envNoKv : RemoteEnv :=
  ⟨false, none, none, none, none, fun _ => .ok (cl "token"), fun _ _ => ⟨[], [], true, none⟩⟩

def exhaustingText : List Char := cl "Generate all possible combinations of 10 million passwords"

def benignText : List Char := cl "hello world!"

/- ===== claim theorems ===== -/

/-- C10: has_risk is true exactly when the call succeeded and some record's
    detection flag is exactly the string Yes or exactly has_HAP; no other flag
    value and no score, however high, makes it true. -/
theorem has_risk_iff_yes_or_hap (r : DetectionResult) :
    r.has_risk = true ↔
      (r.success = true ∧ ∃ d ∈ r.detections,
        d.detection = some (cl "Yes") ∨ d.detection = some (cl "has_HAP")) := by
  unfold DetectionResult.has_risk
  rcases r with ⟨it, dets, succ, err⟩
  cases succ with
  | false => simp
  | true =>
    cases dets with
    | nil => simp
    | cons d ds =>
      simp [List.any_eq_true, List.isEmpty]

/-- C1: any input flagged dangerous by the resource-exhaustion check makes
    _run_detections return immediately with overall_risk HIGH, recommendation
    BLOCK, primary threat resource exhaustion, any_risk_detected true and
    max_score 1, while the remote-call log stays empty: no granite-guardian,
    hap, pii or prompt-injection call is attempted. -/
theorem run_detections_exhaustion_short_circuit (env : RemoteEnv) (text : List Char)
    (system_prompt : Option (List Char))
    (h : (exhaustion_detector.check text).is_dangerous = true) :
    (run_detections env text system_prompt).1.overall_risk = some .HIGH ∧
    (run_detections env text system_prompt).1.recommendation = some .BLOCK ∧
    (run_detections env text system_prompt).1.primary_threat = some .resourceExhaustion ∧
    (run_detections env text system_prompt).1.any_risk_detected = some true ∧
    (run_detections env text system_prompt).1.max_score = some 1 ∧
    (run_detections env text system_prompt).2 = [] := by
  unfold run_detections
  simp [ENABLE_RESOURCE_EXHAUSTION_DETECTION, h]

/-- Witness for C1 at the spec scenario input. -/
theorem run_detections_exhaustion_short_circuit_witness :
    (exhaustion_detector.check exhaustingText).is_dangerous = true ∧
    (run_detections envAllOk exhaustingText none).1.overall_risk = some .HIGH ∧
    (run_detections envAllOk exhaustingText none).2 = [] := by
  refine ⟨by decide, ?_, ?_⟩
  · exact (run_detections_exhaustion_short_circuit envAllOk exhaustingText none (by decide)).1
  · exact (run_detections_exhaustion_short_circuit envAllOk exhaustingText none (by decide)).2.2.2.2.2

/-- C7 counterexample: a short, safe input on which the report's detections map
    is not empty, refuting the empty-map part of the claim (the map holds the
    local resource-exhaustion entry). -/
theorem run_detections_short_text_detections_nonempty :
    (cl "Hi there!").length < MIN_SIZE_MESSAGE ∧
    (exhaustion_detector.check (cl "Hi there!")).is_dangerous = false ∧
    (run_detections envAllOk (cl "Hi there!") none).1.detections ≠ [] := by decide

/-- C7 amended: for text shorter than MIN_SIZE_MESSAGE that passes the
    exhaustion check, the report has success true, its detections map holds
    exactly the local resource-exhaustion entry with every remote category
    omitted, no overall_risk or recommendation key is present (so the report is
    not flagged HIGH and carries no BLOCK recommendation), and no remote call is
    attempted. -/
theorem run_detections_short_text (env : RemoteEnv) (text : List Char)
    (system_prompt : Option (List Char))
    (hshort : text.length < MIN_SIZE_MESSAGE)
    (hsafe : (exhaustion_detector.check text).is_dangerous = false) :
    (run_detections env text system_prompt).1.success = true ∧
    (run_detections env text system_prompt).1.detections =
      [(.resourceExhaustion, .exhaustion (exhaustion_detector.check text))] ∧
    (run_detections env text system_prompt).1.overall_risk = none ∧
    (run_detections env text system_prompt).1.recommendation = none ∧
    (run_detections env text system_prompt).2 = [] := by
  unfold run_detections
  simp [ENABLE_RESOURCE_EXHAUSTION_DETECTION, hsafe, hshort]

/-- Witness for C7 amended at the short input. -/
theorem run_detections_short_text_witness :
    (cl "Hi there!").length < MIN_SIZE_MESSAGE ∧
    (run_detections envAllOk (cl "Hi there!") none).1.detections =
      [(.resourceExhaustion, .exhaustion (exhaustion_detector.check (cl "Hi there!")))] := by
  exact ⟨by decide,
    (run_detections_short_text envAllOk (cl "Hi there!") none (by decide) (by decide)).2.1⟩

/-- C4: a stage whose condition applies and which returns continue false ends
    the chain at once: the chain result is continue false with that stage's
    modified payload, and the invocation log shows no later stage ran. -/
theorem chain_plugins_first_block (stage : StageConfig) (later : List StageConfig)
    (payload : AgentPreInvokePayload) (result : AgentPreInvokeResult)
    (hcond : stageApplies stage (chainUserText payload) = true)
    (hrun : stage.func payload = .ok result)
    (hblock : result.continue_processing = false) :
    chain_plugins (stage :: later) payload =
      ({ continue_processing := false, modified_payload := result.modified_payload },
       [stage.name]) := by
  unfold chain_plugins
  simp [hcond, hrun, hblock]

/-- Witness for C4: a two-stage chain whose first stage always blocks. -/
theorem chain_plugins_first_block_witness :
    chain_plugins
        [⟨cl "detect_risks", fun p => .ok ⟨false, some p, none⟩, .always⟩,
         ⟨cl "link_safety", fun _ => .ok ⟨true, none, none⟩, .if_link_present⟩]
        ⟨[]⟩ =
      ({ continue_processing := false, modified_payload := some ⟨[]⟩ },
       [cl "detect_risks"]) :=
  chain_plugins_first_block
    ⟨cl "detect_risks", fun p => .ok ⟨false, some p, none⟩, .always⟩
    [⟨cl "link_safety", fun _ => .ok ⟨true, none, none⟩, .if_link_present⟩]
    ⟨[]⟩ ⟨false, some ⟨[]⟩, none⟩ rfl rfl rfl

/-- C5: a stage that raises makes the chain fail closed: the exception is
    absorbed, the chain returns continue false, and the invocation log shows no
    later stage ran. -/
theorem chain_plugins_exception_fails_closed (stage : StageConfig)
    (later : List StageConfig) (payload : AgentPreInvokePayload) (e : List Char)
    (hcond : stageApplies stage (chainUserText payload) = true)
    (hraise : stage.func payload = .error e) :
    chain_plugins (stage :: later) payload =
      ({ continue_processing := false }, [stage.name]) := by
  unfold chain_plugins
  simp [hcond, hraise]

/-- Witness for C5: a two-stage chain whose first stage raises. -/
theorem chain_plugins_exception_fails_closed_witness :
    chain_plugins
        [⟨cl "detect_risks", fun _ => .error (cl "boom"), .always⟩,
         ⟨cl "link_safety", fun _ => .ok ⟨true, none, none⟩, .if_link_present⟩]
        ⟨[]⟩ =
      ({ continue_processing := false }, [cl "detect_risks"]) :=
  chain_plugins_exception_fails_closed
    ⟨cl "detect_risks", fun _ => .error (cl "boom"), .always⟩
    [⟨cl "link_safety", fun _ => .ok ⟨true, none, none⟩, .if_link_present⟩]
    ⟨[]⟩ (cl "boom") rfl rfl

/-- C3: the gate fails open and blocks only on a HIGH or BLOCK report. First,
    when the aggregation reports failure the gate continues with the original
    messages passed through. Second, whenever the gate returns continue false,
    the report on the extracted last-message text succeeded and carries
    overall_risk HIGH or recommendation BLOCK. Third, the exception handler of
    the gate fails open, passing the payload through. -/
theorem detect_risks_plugin_fail_open (env : RemoteEnv) (payload : AgentPreInvokePayload) :
    (∀ last_message, payload.messages.getLast? = some last_message →
      last_message.content.text ≠ [] →
      (run_detections env last_message.content.text none).1.success = false →
      detect_risks_plugin env payload =
        { continue_processing := true, messages := some payload.messages }) ∧
    ((detect_risks_plugin env payload).continue_processing = false →
      ∃ last_message, payload.messages.getLast? = some last_message ∧
        (run_detections env last_message.content.text none).1.success = true ∧
        ((run_detections env last_message.content.text none).1.overall_risk = some .HIGH ∨
         (run_detections env last_message.content.text none).1.recommendation = some .BLOCK)) ∧
    (detect_risks_plugin_on_error payload).continue_processing = true := by
  refine ⟨?_, ?_, rfl⟩
  · intro lm hlm hne hfail
    unfold detect_risks_plugin
    rw [hlm]
    have hemp : lm.content.text.isEmpty = false := by
      cases hc : lm.content.text with
      | nil => exact absurd hc hne
      | cons a as => rfl
    simp [hemp, hfail]
  · intro hblocked
    unfold detect_risks_plugin at hblocked
    cases hL : payload.messages.getLast? with
    | none => rw [hL] at hblocked; simp at hblocked
    | some lm =>
      rw [hL] at hblocked
      by_cases hemp : lm.content.text.isEmpty
      · simp [hemp] at hblocked
      · rw [Bool.not_eq_true] at hemp
        by_cases hsucc : (run_detections env lm.content.text none).1.success
        · by_cases hcond :
            ((run_detections env lm.content.text none).1.overall_risk.getD .LOW = .HIGH ∨
             (run_detections env lm.content.text none).1.recommendation.getD .ALLOW = .BLOCK)
          · refine ⟨lm, rfl, hsucc, ?_⟩
            rcases hcond with hov | hrec
            · left
              cases hov2 : (run_detections env lm.content.text none).1.overall_risk with
              | none => rw [hov2] at hov; exact absurd hov (by decide)
              | some v => rw [hov2] at hov; simp only [Option.getD_some] at hov; rw [hov]
            · right
              cases hrec2 : (run_detections env lm.content.text none).1.recommendation with
              | none => rw [hrec2] at hrec; exact absurd hrec (by decide)
              | some v => rw [hrec2] at hrec; simp only [Option.getD_some] at hrec; rw [hrec]
          · push_neg at hcond
            simp [hemp, hsucc, hcond.1, hcond.2] at hblocked
        · rw [Bool.not_eq_true] at hsucc
          simp [hemp, hsucc] at hblocked

/-- Witness for C3: an environment whose connection lookup is not a dictionary
    makes the aggregation fail and the gate continue with the messages intact. -/
theorem detect_risks_plugin_fail_open_witness :
    detect_risks_plugin envNoKv ⟨[⟨.user, ⟨cl "text", benignText⟩⟩]⟩ =
      { continue_processing := true,
        messages := some [⟨.user, ⟨cl "text", benignText⟩⟩] } :=
  (detect_risks_plugin_fail_open envNoKv ⟨[⟨.user, ⟨cl "text", benignText⟩⟩]⟩).1
    ⟨.user, ⟨cl "text", benignText⟩⟩ rfl (by decide) (by decide)

/-- C9: on a HIGH or BLOCK verdict the gate returns continue false and a copy of
    the payload differing only in the last message, which becomes a block notice
    composed of the configured block message, the primary threat name and the
    remediation guidance; all earlier messages are kept unchanged. -/
theorem detect_risks_plugin_block_rewrites_payload (env : RemoteEnv)
    (payload : AgentPreInvokePayload) (last_message : Message)
    (hlast : payload.messages.getLast? = some last_message)
    (hne : last_message.content.text ≠ [])
    (hsucc : (run_detections env last_message.content.text none).1.success = true)
    (hblock :
      (run_detections env last_message.content.text none).1.overall_risk = some .HIGH ∨
      (run_detections env last_message.content.text none).1.recommendation = some .BLOCK) :
    detect_risks_plugin env payload =
      { continue_processing := false
        modified_payload := some
          { messages := payload.messages.dropLast ++
              [⟨.user, ⟨cl "text",
                ((run_detections env last_message.content.text none).1.response.map
                    ResponseConfig.message).getD FALLBACK_BLOCK_MESSAGE ++
                  cl "\n\nPrimary concern: " ++
                  (((run_detections env last_message.content.text none).1.primary_threat.map
                      categoryName).getD (cl "unknown")) ++
                  cl ". " ++
                  ((run_detections env last_message.content.text none).1.response.map
                    ResponseConfig.guidance).getD FALLBACK_GUIDANCE⟩⟩] } } := by
  unfold detect_risks_plugin
  rw [hlast]
  have hemp : last_message.content.text.isEmpty = false := by
    cases hc : last_message.content.text with
    | nil => exact absurd hc hne
    | cons a as => rfl
  have hcond :
      ((run_detections env last_message.content.text none).1.overall_risk.getD .LOW = .HIGH ∨
       (run_detections env last_message.content.text none).1.recommendation.getD .ALLOW = .BLOCK) := by
    rcases hblock with h | h
    · left; rw [h]; rfl
    · right; rw [h]; rfl
  rcases hcond with h | h
  · simp [hemp, hsucc, h]
  · simp [hemp, hsucc, h]

/-- Witness for C9 at the exhaustion scenario: the single message is replaced by
    the composed block notice naming resource exhaustion. -/
theorem detect_risks_plugin_block_rewrites_payload_witness :
    detect_risks_plugin envAllOk ⟨[⟨.user, ⟨cl "text", exhaustingText⟩⟩]⟩ =
      { continue_processing := false
        modified_payload := some
          { messages := [⟨.user, ⟨cl "text",
              ((run_detections envAllOk exhaustingText none).1.response.map
                  ResponseConfig.message).getD FALLBACK_BLOCK_MESSAGE ++
                cl "\n\nPrimary concern: " ++
                (((run_detections envAllOk exhaustingText none).1.primary_threat.map
                    categoryName).getD (cl "unknown")) ++
                cl ". " ++
                ((run_detections envAllOk exhaustingText none).1.response.map
                  ResponseConfig.guidance).getD FALLBACK_GUIDANCE⟩⟩] } } :=
  detect_risks_plugin_block_rewrites_payload envAllOk
    ⟨[⟨.user, ⟨cl "text", exhaustingText⟩⟩]⟩ ⟨.user, ⟨cl "text", exhaustingText⟩⟩
    rfl (by decide) (by decide) (Or.inl (by decide))

/- ===== C8 machinery: severity of matched rules ===== -/

/-- Severity a matched rule escalates to in ResourceExhaustionDetector.check. -/
def Reason.severity : Reason → RiskLevel
  | .promptTooLong _ => .high
  | .largeNumbersDetected _ => .medium
  | .numberExceedsLimit _ => .high
  | .excessiveMagnitude _ _ => .high
  | .magnitudeKeyword _ => .medium
  | .dangerousKeyword _ => .medium
  | .dangerousPattern _ _ => .high
  | .exhaustiveEnumeration => .high

/-- Maximum severity over a list of matched rules, low when none matched. -/
def maxSeverity (rs : List Reason) : RiskLevel :=
  (rs.map Reason.severity).foldl RiskLevel.maxL .low

theorem maxL_high (a : RiskLevel) : a.maxL .high = .high := by cases a <;> rfl

theorem maxSeverity_append (rs : List Reason) (r : Reason) :
    maxSeverity (rs ++ [r]) = (maxSeverity rs).maxL r.severity := by
  unfold maxSeverity
  rw [List.map_append, List.foldl_append]
  rfl

theorem maxSeverity_append₂ (rs : List Reason) (r1 r2 : Reason) :
    maxSeverity (rs ++ [r1, r2]) = ((maxSeverity rs).maxL r1.severity).maxL r2.severity := by
  rw [show rs ++ [r1, r2] = (rs ++ [r1]) ++ [r2] by simp, maxSeverity_append, maxSeverity_append]

/-- Invariant threaded through the check steps: the running risk level equals
    the maximum severity of the reasons recorded so far. -/
def InvChk (st : CheckState) : Prop := st.risk_level = maxSeverity st.reasons

theorem invChk_lengthStep (d : ResourceExhaustionDetector) (text : List Char)
    (st : CheckState) (h : InvChk st) : InvChk (lengthStep d text st) := by
  unfold InvChk at h ⊢
  unfold lengthStep
  split
  · simp [maxSeverity_append, Reason.severity, maxL_high]
  · exact h

theorem invChk_largeNumberStep (d : ResourceExhaustionDetector) (text : List Char)
    (st : CheckState) (h : InvChk st) : InvChk (largeNumberStep d text st) := by
  unfold InvChk at h ⊢
  unfold largeNumberStep
  split
  · exact h
  · split
    · simp [maxSeverity_append, maxSeverity_append₂, Reason.severity, maxL_high]
    · simp [maxSeverity_append, Reason.severity, h]

theorem invChk_magnitudeWordStep (d : ResourceExhaustionDetector) (tl : List Char)
    (st : CheckState) (wm : List Char × Nat) (h : InvChk st) :
    InvChk (magnitudeWordStep d tl st wm) := by
  unfold InvChk at h ⊢
  unfold magnitudeWordStep
  split
  · split
    · split
      · simp [maxSeverity_append, Reason.severity, maxL_high]
      · exact h
    · simp [maxSeverity_append, Reason.severity, h]
  · exact h

theorem invChk_keywordStep (tl : List Char) (st : CheckState) (kw : List Char)
    (h : InvChk st) : InvChk (keywordStep tl st kw) := by
  unfold InvChk at h ⊢
  unfold keywordStep
  split
  · simp [maxSeverity_append, Reason.severity, h]
  · exact h

theorem invChk_actionWordStep (tl : List Char) (st : CheckState) (action : List Char)
    (h : InvChk st) : InvChk (actionWordStep tl st action) := by
  unfold InvChk at h ⊢
  unfold actionWordStep
  split
  · simp [maxSeverity_append, Reason.severity, maxL_high]
  · exact h

theorem invChk_enumerationStep (tl : List Char) (st : CheckState) (h : InvChk st) :
    InvChk (enumerationStep tl st) := by
  unfold InvChk at h ⊢
  unfold enumerationStep
  split
  · simp [maxSeverity_append, Reason.severity, maxL_high]
  · exact h

theorem invChk_foldl {α : Type} (f : CheckState → α → CheckState)
    (hf : ∀ st a, InvChk st → InvChk (f st a)) :
    ∀ (l : List α) (st : CheckState), InvChk st → InvChk (l.foldl f st)
  | [], _, h => h
  | a :: as, st, h => invChk_foldl f hf as (f st a) (hf st a h)

/-- C8: the risk level returned by ResourceExhaustionDetector.check equals the
    maximum severity over all rules matched in that call: high when any
    high-severity rule matched, else medium when any medium-severity rule
    matched, else low; matching additional rules never lowers it. -/
theorem check_risk_level_eq_max_severity (d : ResourceExhaustionDetector)
    (text : List Char) :
    (d.check text).risk_level = maxSeverity (d.check text).reasons := by
  have h0 : InvChk ⟨[], .low, none⟩ := rfl
  have h1 := invChk_lengthStep d text _ h0
  have h2 := invChk_largeNumberStep d text _ h1
  have h3 := invChk_foldl (magnitudeWordStep d (text.map Char.toLower))
    (fun st a h => invChk_magnitudeWordStep d (text.map Char.toLower) st a h)
    magnitude_words _ h2
  have h4 := invChk_foldl (keywordStep (text.map Char.toLower))
    (fun st a h => invChk_keywordStep (text.map Char.toLower) st a h)
    dangerous_keywords _ h3
  have h5 := invChk_foldl (actionWordStep (text.map Char.toLower))
    (fun st a h => invChk_actionWordStep (text.map Char.toLower) st a h)
    action_words _ h4
  exact invChk_enumerationStep (text.map Char.toLower) _ h5

/- ===== C2 and C6 machinery: scores live on the rounding grid ===== -/

/-- Scores representable on the four-decimal rounding grid. -/
def Q4 (q : ℚ) : Prop := ∃ m : ℤ, q = mkRat m 10000

theorem q4_zero : Q4 0 := ⟨0, by decide⟩

theorem q4_roundQ4 (q : ℚ) : Q4 (roundQ4 q) := ⟨_, rfl⟩

/-- Rounding to four decimals fixes every value already on the grid. -/
theorem roundQ4_fix (q : ℚ) (h : Q4 q) : roundQ4 q = q := by
  obtain ⟨m, rfl⟩ := h
  unfold roundQ4
  have hdpos : (0 : ℤ) < ((mkRat m 10000).den : ℤ) := by exact_mod_cast (mkRat m 10000).pos
  have hnum : (mkRat m 10000).num * 10000 = m * ((mkRat m 10000).den : ℤ) := by
    have h1 : ((mkRat m 10000).num : ℚ) / ((mkRat m 10000).den : ℚ)
        = (m : ℚ) / ((10000 : ℕ) : ℚ) := by
      rw [Rat.num_div_den, Rat.mkRat_eq_div]
    have h2 : ((mkRat m 10000).num : ℚ) * ((10000 : ℕ) : ℚ)
        = (m : ℚ) * ((mkRat m 10000).den : ℚ) := by
      rw [div_eq_div_iff] at h1
      · exact h1
      · exact_mod_cast (mkRat m 10000).den_nz
      · norm_num
    exact_mod_cast h2
  have hc : (2 : ℤ) * ((mkRat m 10000).den : ℤ) ≠ 0 := by positivity
  have key : (2 * ((mkRat m 10000).num * 10000) + ((mkRat m 10000).den : ℤ)).ediv
      (2 * ((mkRat m 10000).den : ℤ)) = m := by
    have h2 : 2 * ((mkRat m 10000).num * 10000) + ((mkRat m 10000).den : ℤ)
        = ((mkRat m 10000).den : ℤ) + m * (2 * ((mkRat m 10000).den : ℤ)) := by
      rw [hnum]; ring
    calc (2 * ((mkRat m 10000).num * 10000) + ((mkRat m 10000).den : ℤ)).ediv
          (2 * ((mkRat m 10000).den : ℤ))
        = (((mkRat m 10000).den : ℤ) + m * (2 * ((mkRat m 10000).den : ℤ))) /
          (2 * ((mkRat m 10000).den : ℤ)) := by rw [h2]; rfl
      _ = ((mkRat m 10000).den : ℤ) / (2 * ((mkRat m 10000).den : ℤ)) + m :=
          Int.add_mul_ediv_right _ _ hc
      _ = 0 + m := by rw [Int.ediv_eq_zero_of_lt hdpos.le (by linarith)]
      _ = m := by ring
  rw [key]

theorem q4_pyMax {a b : ℚ} (ha : Q4 a) (hb : Q4 b) : Q4 (pyMax a b) := by
  unfold pyMax
  split
  · exact hb
  · exact ha

theorem q4_foldl_pyMax (l : List ℚ) (x : ℚ) (hx : Q4 x) (h : ∀ y ∈ l, Q4 y) :
    Q4 (l.foldl pyMax x) := by
  induction l generalizing x with
  | nil => exact hx
  | cons a as ih =>
    exact ih (pyMax x a) (q4_pyMax hx (h a (List.mem_cons_self a as)))
      (fun y hy => h y (List.mem_cons_of_mem a hy))

theorem q4_pyMaxD0 (l : List ℚ) (h : ∀ y ∈ l, Q4 y) : Q4 (pyMaxD0 l) := by
  cases l with
  | nil => exact q4_zero
  | cons x xs =>
    exact q4_foldl_pyMax xs x (h x (List.mem_cons_self x xs))
      (fun y hy => h y (List.mem_cons_of_mem x hy))

/-- Invariant of the remote phase: every recorded entry's score lies on the grid. -/
def ScoresQ4 (dets : List (CategoryKey × CategoryEntry)) : Prop :=
  ∀ p ∈ dets, Q4 p.2.getScore

theorem scoresQ4_remoteStep (env : RemoteEnv) (token : List Char) (key : CategoryKey)
    (threshold : ℚ) (spc : Option Bool) (st : AggState) (h : ScoresQ4 st.dets) :
    ScoresQ4 (remoteStep env token key threshold spc st).dets := by
  simp only [remoteStep]
  split
  · intro p hp
    rcases List.mem_append.1 hp with h1 | h2
    · exact h p h1
    · rw [List.mem_singleton] at h2
      subst h2
      exact q4_roundQ4 _
  · exact h

theorem scoresQ4_graniteStep (env : RemoteEnv) (token : List Char) (st : AggState)
    (spec : CategoryKey × Bool × ℚ) (h : ScoresQ4 st.dets) :
    ScoresQ4 (graniteStep env token st spec).dets := by
  unfold graniteStep
  split
  · exact scoresQ4_remoteStep _ _ _ _ _ _ h
  · exact h

theorem scoresQ4_foldl_granite (env : RemoteEnv) (token : List Char) :
    ∀ (l : List (CategoryKey × Bool × ℚ)) (st : AggState), ScoresQ4 st.dets →
      ScoresQ4 ((l.foldl (graniteStep env token) st)).dets
  | [], _, h => h
  | a :: as, st, h =>
    scoresQ4_foldl_granite env token as (graniteStep env token st a)
      (scoresQ4_graniteStep env token st a h)

theorem scoresQ4_runRemotePhase (env : RemoteEnv) (token : List Char)
    (sp : Option (List Char)) (st : AggState) (h : ScoresQ4 st.dets) :
    ScoresQ4 (runRemotePhase env token sp st).dets := by
  unfold runRemotePhase
  simp only [ENABLE_HAP_DETECTION, ENABLE_PII_DETECTION,
    ENABLE_PROMPT_INJECTION_DETECTION, if_true]
  exact scoresQ4_remoteStep _ _ _ _ _ _
    (scoresQ4_remoteStep _ _ _ _ _ _
      (scoresQ4_remoteStep _ _ _ _ _ _
        (scoresQ4_foldl_granite env token granite_detections st h)))

/-- Reduction of _run_detections on the full path: exhaustion not dangerous,
    text long enough, connection a dictionary, credentials present and the token
    exchange succeeding make the run reach the remote phase and the scored report. -/
theorem run_detections_full_path (env : RemoteEnv) (text : List Char)
    (system_prompt : Option (List Char)) (token : List Char)
    (hsafe : (exhaustion_detector.check text).is_dangerous = false)
    (hlen : MIN_SIZE_MESSAGE ≤ text.length)
    (hkv : env.kvIsDict = true)
    (hak : pyFalsy (optOr env.kv_api_key env.env_api_key) = false)
    (hik : pyFalsy (optOr env.kv_instance_id env.env_instance_id) = false)
    (htok : env.tokenExchange ((optOr env.kv_api_key env.env_api_key).getD []) = .ok token) :
    run_detections env text system_prompt =
      (scoreReport (truncateInput text)
        (runRemotePhase env token system_prompt
          ⟨[.resourceExhaustion],
           [(.resourceExhaustion, .exhaustion (exhaustion_detector.check text))], []⟩),
       (runRemotePhase env token system_prompt
          ⟨[.resourceExhaustion],
           [(.resourceExhaustion, .exhaustion (exhaustion_detector.check text))], []⟩).calls) := by
  have hnlt : ¬ (text.length < MIN_SIZE_MESSAGE) := Nat.not_lt.2 hlen
  simp only [run_detections]
  rw [if_neg (show ¬ ((ENABLE_RESOURCE_EXHAUSTION_DETECTION &&
      (exhaustion_detector.check text).is_dangerous) = true) by
    simp [ENABLE_RESOURCE_EXHAUSTION_DETECTION, hsafe])]
  rw [if_neg hnlt]
  rw [if_neg (show ¬ ((!LOCAL_MODE && !env.kvIsDict) = true) by simp [LOCAL_MODE, hkv])]
  rw [if_neg (show ¬ (LOCAL_MODE = true) by decide),
      if_neg (show ¬ (LOCAL_MODE = true) by decide)]
  rw [if_neg (show ¬ ((pyFalsy (optOr env.kv_api_key env.env_api_key) ||
      pyFalsy (optOr env.kv_instance_id env.env_instance_id)) = true) by simp [hak, hik])]
  rw [htok]
  rfl

/-- Score-to-verdict mapping of the claim: at or above 0.8 HIGH, at or above 0.6
    MEDIUM (boundary inclusive), else LOW. -/
def riskOfScore (m : ℚ) : RiskBand :=
  if mkRat 8 10 ≤ m then .HIGH else if mkRat 6 10 ≤ m then .MEDIUM else .LOW

/-- Recommendation half of the mapping at the same thresholds. -/
def recOfScore (m : ℚ) : Recommendation :=
  if mkRat 8 10 ≤ m then .BLOCK else if mkRat 6 10 ≤ m then .REVIEW else .ALLOW

theorem scoreVerdict_fst (ms : ℚ) : (scoreVerdict ms).1 = riskOfScore ms := by
  by_cases h1 : mkRat 8 10 ≤ ms <;> by_cases h2 : mkRat 6 10 ≤ ms <;>
    simp [scoreVerdict, riskOfScore, h1, h2]

theorem scoreVerdict_snd (ms : ℚ) : (scoreVerdict ms).2.1 = recOfScore ms := by
  by_cases h1 : mkRat 8 10 ≤ ms <;> by_cases h2 : mkRat 6 10 ≤ ms <;>
    simp [scoreVerdict, recOfScore, h1, h2]

/-- Verdict of a scored report is the fixed function of its own rounded
    max_score, provided all recorded scores lie on the rounding grid. -/
theorem scoreReport_verdict (input_text : List Char) (st : AggState)
    (h : ScoresQ4 st.dets) :
    (scoreReport input_text st).overall_risk =
      ((scoreReport input_text st).max_score).map riskOfScore ∧
    (scoreReport input_text st).recommendation =
      ((scoreReport input_text st).max_score).map recOfScore := by
  have hq : Q4 (pyMaxD0 ((st.dets.filter fun p => p.2.getDetected).map
      fun p => p.2.getScore)) := by
    apply q4_pyMaxD0
    intro y hy
    rcases List.mem_map.1 hy with ⟨p, hp, rfl⟩
    exact h p (List.mem_filter.1 hp).1
  have hfix := roundQ4_fix _ hq
  unfold scoreReport
  simp only [Option.map_some]
  rw [hfix, scoreVerdict_fst, scoreVerdict_snd]
  exact ⟨rfl, rfl⟩

/-- C2: in a successful full run (exhaustion not dangerous, text long enough,
    connection a dictionary, credentials present, token exchange succeeding),
    overall_risk and recommendation are the fixed function of the report's own
    max_score: at or above 0.8 HIGH and BLOCK, at or above 0.6 MEDIUM and REVIEW
    with the 0.6 boundary inclusive, below LOW and ALLOW, independent of which
    category produced the maximum. -/
theorem run_detections_verdict_from_max_score (env : RemoteEnv) (text : List Char)
    (system_prompt : Option (List Char)) (token : List Char)
    (hsafe : (exhaustion_detector.check text).is_dangerous = false)
    (hlen : MIN_SIZE_MESSAGE ≤ text.length)
    (hkv : env.kvIsDict = true)
    (hak : pyFalsy (optOr env.kv_api_key env.env_api_key) = false)
    (hik : pyFalsy (optOr env.kv_instance_id env.env_instance_id) = false)
    (htok : env.tokenExchange ((optOr env.kv_api_key env.env_api_key).getD []) = .ok token) :
    (run_detections env text system_prompt).1.overall_risk =
      ((run_detections env text system_prompt).1.max_score).map riskOfScore ∧
    (run_detections env text system_prompt).1.recommendation =
      ((run_detections env text system_prompt).1.max_score).map recOfScore := by
  rw [run_detections_full_path env text system_prompt token hsafe hlen hkv hak hik htok]
  apply scoreReport_verdict
  apply scoresQ4_runRemotePhase
  intro p hp
  rw [List.mem_singleton] at hp
  subst hp
  exact q4_zero

/-- Witness for C2 with clean remote responses on a benign text. -/
theorem run_detections_verdict_from_max_score_witness :
    (run_detections envAllOk benignText none).1.overall_risk =
      ((run_detections envAllOk benignText none).1.max_score).map riskOfScore ∧
    (run_detections envAllOk benignText none).1.recommendation =
      ((run_detections envAllOk benignText none).1.max_score).map recOfScore :=
  run_detections_verdict_from_max_score envAllOk benignText none (cl "token")
    (by decide) (by decide) rfl (by decide) (by decide) rfl

/- ===== C6 machinery: a failed category is never recorded ===== -/

theorem notMem_remoteStep (env : RemoteEnv) (token : List Char) (key key2 : CategoryKey)
    (th : ℚ) (spc : Option Bool) (st : AggState)
    (hfail : (env.detect token key).success = false)
    (h : key ∉ st.dets.map Prod.fst) :
    key ∉ (remoteStep env token key2 th spc st).dets.map Prod.fst := by
  simp only [remoteStep]
  by_cases hk : key2 = key
  · subst hk
    rw [if_neg (by rw [hfail]; exact Bool.false_ne_true)]
    exact h
  · split
    · intro hmem
      rw [List.map_append, List.mem_append] at hmem
      rcases hmem with h1 | h2
      · exact h h1
      · simp only [List.map_cons, List.map_nil, List.mem_singleton] at h2
        exact hk h2.symm
    · exact h

theorem notMem_graniteStep (env : RemoteEnv) (token : List Char) (st : AggState)
    (spec : CategoryKey × Bool × ℚ) (key : CategoryKey)
    (hfail : (env.detect token key).success = false)
    (h : key ∉ st.dets.map Prod.fst) :
    key ∉ (graniteStep env token st spec).dets.map Prod.fst := by
  unfold graniteStep
  split
  · exact notMem_remoteStep env token key spec.1 _ _ st hfail h
  · exact h

theorem notMem_foldl_granite (env : RemoteEnv) (token : List Char) (key : CategoryKey)
    (hfail : (env.detect token key).success = false) :
    ∀ (l : List (CategoryKey × Bool × ℚ)) (st : AggState),
      key ∉ st.dets.map Prod.fst →
      key ∉ ((l.foldl (graniteStep env token) st)).dets.map Prod.fst
  | [], _, h => h
  | a :: as, st, h =>
    notMem_foldl_granite env token key hfail as (graniteStep env token st a)
      (notMem_graniteStep env token st a key hfail h)

theorem notMem_runRemotePhase (env : RemoteEnv) (token : List Char)
    (sp : Option (List Char)) (st : AggState) (key : CategoryKey)
    (hfail : (env.detect token key).success = false)
    (h : key ∉ st.dets.map Prod.fst) :
    key ∉ (runRemotePhase env token sp st).dets.map Prod.fst := by
  unfold runRemotePhase
  simp only [ENABLE_HAP_DETECTION, ENABLE_PII_DETECTION,
    ENABLE_PROMPT_INJECTION_DETECTION, if_true]
  exact notMem_remoteStep env token key _ _ _ _ hfail
    (notMem_remoteStep env token key _ _ _ _ hfail
      (notMem_remoteStep env token key _ _ _ _ hfail
        (notMem_foldl_granite env token key hfail granite_detections st h)))

/-- C6: a remote category whose detect call fails is absent from the detections
    map of a full run, and the aggregates are computed only from the recorded
    detections: any_risk_detected is the disjunction of their detected flags and
    max_score the rounded maximum score over those with detected true. -/
theorem run_detections_failed_category_absent (env : RemoteEnv) (text : List Char)
    (system_prompt : Option (List Char)) (token : List Char) (key : CategoryKey)
    (hsafe : (exhaustion_detector.check text).is_dangerous = false)
    (hlen : MIN_SIZE_MESSAGE ≤ text.length)
    (hkv : env.kvIsDict = true)
    (hak : pyFalsy (optOr env.kv_api_key env.env_api_key) = false)
    (hik : pyFalsy (optOr env.kv_instance_id env.env_instance_id) = false)
    (htok : env.tokenExchange ((optOr env.kv_api_key env.env_api_key).getD []) = .ok token)
    (hkey : key ≠ .resourceExhaustion)
    (hfail : (env.detect token key).success = false) :
    key ∉ (run_detections env text system_prompt).1.detections.map Prod.fst ∧
    (run_detections env text system_prompt).1.any_risk_detected =
      some ((run_detections env text system_prompt).1.detections.any
        fun p => p.2.getDetected) ∧
    (run_detections env text system_prompt).1.max_score =
      some (roundQ4 (pyMaxD0
        (((run_detections env text system_prompt).1.detections.filter
            fun p => p.2.getDetected).map fun p => p.2.getScore))) := by
  rw [run_detections_full_path env text system_prompt token hsafe hlen hkv hak hik htok]
  refine ⟨?_, rfl, rfl⟩
  apply notMem_runRemotePhase env token system_prompt _ key hfail
  simp [hkey]

/-- Witness for C6: the harm call times out while the others succeed; the harm
    category is absent from the recorded detections. -/
theorem run_detections_failed_category_absent_witness :
    CategoryKey.harm ∉
      (run_detections envFailHarm benignText none).1.detections.map Prod.fst :=
  (run_detections_failed_category_absent envFailHarm benignText none (cl "token")
    .harm (by decide) (by decide) rfl (by decide) (by decide) rfl
    (by decide) (by decide)).1
